import Mathlib

/-!
Shallow embedding of the `ocr_translate_hugging_face.plugin` module
(`src/ocr_translate_hugging_face/plugin.py`).

The module is a thin adapter over an external model-hub library.  The
external library calls (`from_pretrained`, tokenizer calls, `generate`,
`batch_decode`, image processors) are modelled as oracle behaviours
(records of functions), and the adapter's own control flow is embedded
directly.  Functions additionally return a trace of the external calls
they perform, so that claims about *which* calls happen (and in which
order) are expressible.
-/

/-- A dynamic Python value, as far as the adapter inspects it:
`_translate` checks `isinstance(tokens, list)`, `len(tokens)` and
`isinstance(tokens[0], str)`; `_ocr` performs no inspection of `img`. -/
inductive PyVal where
  | noneV : PyVal
  | str (s : String) : PyVal
  | int (n : Int) : PyVal
  | list (xs : List PyVal) : PyVal
  | image (id : Nat) : PyVal
deriving Repr

/-- `isinstance(v, str)`. -/
def PyVal.isStr : PyVal → Bool
  | .str _ => true
  | _ => false

/-- Python exceptions the adapter can raise or propagate.  `loaderExn`
stands for an arbitrary exception raised by an external loader call
(identified by an opaque id). -/
inductive PyErr where
  | valueError (msg : String) : PyErr
  | typeError (msg : String) : PyErr
  | runtimeError (msg : String) : PyErr
  | indexError : PyErr
  | loaderExn (e : Nat) : PyErr
deriving DecidableEq, Repr

/-- Whether a computation ended in a `ValueError`. -/
def isValueError {α : Type} : Except PyErr α → Bool
  | .error (.valueError _) => true
  | _ => false

/-- The options dictionary, restricted to the keys `get_mnt` reads.
A `none` field means the key is absent and the default applies. -/
structure MntOptions where
  min_max_new_tokens : Option Int := none
  max_max_new_tokens : Option Int := none
  max_new_tokens_ratio : Option ℚ := none
deriving DecidableEq, Repr

/-- Python `int()` on a number: truncation toward zero. -/
def pyInt (q : ℚ) : Int :=
  if 0 ≤ q then ⌊q⌋ else ⌈q⌉

/-- `get_mnt` (plugin.py lines 92-108): the maximum number of new tokens
to generate, with defaults 20 / 512 / 3.0 and a validity check. -/
def get_mnt (ntok : Nat) (options : MntOptions) : Except PyErr Int :=
  let min_max_new_tokens : Int := options.min_max_new_tokens.getD 20
  let max_max_new_tokens : Int := options.max_max_new_tokens.getD 512
  let max_new_tokens_ratio : ℚ := options.max_new_tokens_ratio.getD 3
  if min_max_new_tokens > max_max_new_tokens then
    Except.error (PyErr.valueError "min_max_new_tokens must be less than max_max_new_tokens")
  else
    Except.ok (pyInt (min (max_max_new_tokens : ℚ)
      (max (min_max_new_tokens : ℚ) (max_new_tokens_ratio * (ntok : ℚ)))))

/-- The loading behaviour of one external loader class (its
`from_pretrained` entry points).  `fromPretrainedPath` is a call with a
filesystem path; `fromPretrainedCache` is a call with a registry id and
a `cache_dir`.  An `Except.error` models a raised exception (opaque id);
`Except.ok none` models a call that returns Python `None`. -/
structure Loader (α : Type) where
  fromPretrainedPath : List String → Except Nat (Option α)
  fromPretrainedCache : String → List String → Except Nat (Option α)

/-- One `from_pretrained` call, as recorded in the trace. -/
inductive LoadAttempt where
  | fromStore (path : List String) : LoadAttempt
  | fromCache (model_id : String) (root : List String) : LoadAttempt
deriving DecidableEq, Repr

/-- `Loaders._load` (plugin.py lines 45-59): try the local path
`root / model_id`; on any exception retry `model_id` as a registry id
with `cache_dir=root`.  Also returns the trace of attempts made. -/
def Loaders._load {α : Type} (loader : Loader α) (model_id : String) (root : List String) :
    Except Nat (Option α) × List LoadAttempt :=
  match loader.fromPretrainedPath (root ++ [model_id]) with
  | Except.ok res => (Except.ok res, [LoadAttempt.fromStore (root ++ [model_id])])
  | Except.error _ =>
      (loader.fromPretrainedCache model_id root,
       [LoadAttempt.fromStore (root ++ [model_id]), LoadAttempt.fromCache model_id root])

/-- `Loaders.accept_device` (plugin.py line 35). -/
def Loaders.accept_device : List String := ["ved_model", "seq2seq", "model"]

/-- The environment binding each entry of `Loaders.mapping` (plugin.py
lines 37-43) to the behaviour of the corresponding external class. -/
structure Env (α : Type) where
  tokenizer : Loader α
  ved_model : Loader α
  model : Loader α
  image_processor : Loader α
  seq2seq : Loader α

/-- Lookup in `Loaders.mapping`: the five supported request kinds. -/
def Loaders.mapping {α : Type} (env : Env α) : String → Option (Loader α)
  | "tokenizer" => some env.tokenizer
  | "ved_model" => some env.ved_model
  | "model" => some env.model
  | "image_processor" => some env.image_processor
  | "seq2seq" => some env.seq2seq
  | _ => none

/-- A loaded object as returned by `Loaders.load`: the artifact and the
device it was moved to by `.to(dev)`, if any. -/
structure LoadedObj (α : Type) where
  obj : α
  movedTo : Option String
deriving DecidableEq, Repr

/-- Python dict assignment `res[k] = v` on an insertion-ordered dict. -/
def dictInsert {β : Type} (d : List (String × β)) (k : String) (v : β) :
    List (String × β) :=
  if d.any (fun p => p.1 == k) then
    d.map (fun p => if p.1 == k then (k, v) else p)
  else
    d ++ [(k, v)]

/-- The loop body of `Loaders.load` (plugin.py lines 76-89), with the
dict built so far in `res`.  Returns the result (or the exception that
propagates) and the trace of per-kind load attempts. -/
def Loaders.loadLoop {α : Type} (env : Env α) (model_id : String) (request : List String)
    (root : List String) (dev : String) (res : List (String × LoadedObj α)) :
    Except PyErr (List (String × LoadedObj α)) × List (String × LoadAttempt) :=
  match request with
  | [] => (Except.ok res, [])
  | r :: rest =>
    match Loaders.mapping env r with
    | none => (Except.error (PyErr.valueError ("Unknown request: " ++ r)), [])
    | some loader =>
      let out := Loaders._load loader model_id root
      let tr := out.2.map (fun a => (r, a))
      match out.1 with
      | Except.error e => (Except.error (PyErr.loaderExn e), tr)
      | Except.ok none =>
          (Except.error (PyErr.valueError ("Could not load model: " ++ model_id)), tr)
      | Except.ok (some cls) =>
        let cls2 : LoadedObj α :=
          if r ∈ Loaders.accept_device then ⟨cls, some dev⟩ else ⟨cls, none⟩
        let next := Loaders.loadLoop env model_id rest root dev (dictInsert res r cls2)
        (next.1, tr ++ next.2)

/-- `Loaders.load` (plugin.py lines 61-89). -/
def Loaders.load {α : Type} (env : Env α) (model_id : String) (request : List String)
    (root : List String) (dev : String) :
    Except PyErr (List (String × LoadedObj α)) × List (String × LoadAttempt) :=
  Loaders.loadLoop env model_id request root dev []

/-- Behaviour of a loaded seq2seq tokenizer.  `encode` is the call
`tokenizer(tokens, return_tensors='pt', padding=True, truncation=True,
is_split_into_words=True)` after `tokenizer.src_lang = src_lang`: it
yields an opaque encoded-batch id and `input_ids.shape[1]` (= ntok). -/
structure TokenizerB where
  isM2M100 : Bool
  getLangId : String → Int
  encode : String → PyVal → Nat × Nat
  batchDecode : Nat → List String

/-- The keyword arguments `_translate` passes to `model.generate`. -/
structure GenKwargs where
  max_new_tokens : Int
  forced_bos_token_id : Option Int
deriving DecidableEq, Repr

/-- Behaviour of a loaded seq2seq model: `generate` maps an encoded
batch and the kwargs to an opaque generated-tokens id. -/
structure ModelB where
  generate : Nat → GenKwargs → Nat

/-- State of a `HugginfaceSeq2SeqModel` instance: the fixed fields
(`name` from the database row, `dev` and `root` from `EnvMixin`) and
the two artifact slots set by `load()` / cleared by `unload()`. -/
structure Seq2SeqState where
  name : String
  dev : String
  root : List String
  model : Option ModelB
  tokenizer : Option TokenizerB

/-- External calls `_translate` can make, in order. -/
inductive TslEvent where
  | setSrcLang (lang : String) : TslEvent
  | encodeCall (tokens : PyVal) : TslEvent
  | encodedTo (dev : String) : TslEvent
  | getLangIdCall (lang : String) : TslEvent
  | generateCall (enc : Nat) (kw : GenKwargs) : TslEvent
  | decodeCall (g : Nat) : TslEvent
  | emptyCache : TslEvent

/-- `HugginfaceSeq2SeqModel.unload` (plugin.py lines 155-165): clear
each artifact slot that is set.  (The `torch.cuda.empty_cache()` call
touches no field of the instance.) -/
def HugginfaceSeq2SeqModel.unload (s : Seq2SeqState) : Seq2SeqState :=
  let s1 := if s.model.isSome then { s with model := none } else s
  if s1.tokenizer.isSome then { s1 with tokenizer := none } else s1

/-- `HugginfaceSeq2SeqModel._translate` (plugin.py lines 168-234),
with the tokenizer and model calls played by the behaviours stored in
the state.  Returns the result (or raised exception) and the trace of
external calls. -/
def HugginfaceSeq2SeqModel._translate (st : Seq2SeqState) (tokens : PyVal)
    (src_lang dst_lang : String) (options : Option MntOptions) :
    Except PyErr PyVal × List TslEvent :=
  match st.model, st.tokenizer with
  | some mdl, some tok =>
    let opts := options.getD {}
    match tokens with
    | PyVal.list xs =>
      match xs with
      | [] => (Except.ok (PyVal.str ""), [])
      | x :: rest =>
        let enc := tok.encode src_lang (PyVal.list (x :: rest))
        let evs0 := [TslEvent.setSrcLang src_lang,
                     TslEvent.encodeCall (PyVal.list (x :: rest)),
                     TslEvent.encodedTo st.dev]
        match get_mnt enc.2 opts with
        | Except.error e => (Except.error e, evs0)
        | Except.ok mnt =>
          let kw : GenKwargs :=
            { max_new_tokens := mnt,
              forced_bos_token_id :=
                if tok.isM2M100 then some (tok.getLangId dst_lang) else none }
          let evs1 := evs0 ++
            (if tok.isM2M100 then [TslEvent.getLangIdCall dst_lang] else [])
          let g := mdl.generate enc.1 kw
          let d := tok.batchDecode g
          let evs2 := evs1 ++ [TslEvent.generateCall enc.1 kw, TslEvent.decodeCall g]
          let evs3 := evs2 ++ (if st.dev == "cuda" then [TslEvent.emptyCache] else [])
          match x, d with
          | PyVal.str _, [] => (Except.error PyErr.indexError, evs2)
          | PyVal.str _, t :: _ => (Except.ok (PyVal.str t), evs3)
          | _, _ => (Except.ok (PyVal.list (d.map PyVal.str)), evs3)
    | _ => (Except.error (PyErr.typeError
        "tokens must be a list of strings or a list of list of strings"), [])
  | _, _ => (Except.error (PyErr.runtimeError "Model not loaded"), [])

/-- The decoded-translations list of a `_translate` call on loaded
behaviours, written out from the pipeline (encode, bound the new-token
count, generate, batch-decode); used to state shape claims about the
return value. -/
def tslDecodedList (tok : TokenizerB) (mdl : ModelB) (tokens : PyVal)
    (src_lang dst_lang : String) (opts : MntOptions) : List String :=
  let enc := tok.encode src_lang tokens
  let mnt := pyInt (min ((opts.max_max_new_tokens.getD 512 : Int) : ℚ)
    (max ((opts.min_max_new_tokens.getD 20 : Int) : ℚ)
      (opts.max_new_tokens_ratio.getD 3 * (enc.2 : ℚ))))
  let kw : GenKwargs :=
    { max_new_tokens := mnt,
      forced_bos_token_id :=
        if tok.isM2M100 then some (tok.getLangId dst_lang) else none }
  tok.batchDecode (mdl.generate enc.1 kw)

/-- Behaviour of a loaded image processor: the call
`image_processor(img, return_tensors='pt').pixel_values`, which may
raise (the adapter performs no checking of `img` before this call). -/
structure ImageProcessorB where
  call : PyVal → Except PyErr Nat

/-- Behaviour of a loaded vision-encoder-decoder model. -/
structure VedModelB where
  generate : Nat → Nat

/-- Behaviour of a loaded OCR tokenizer. -/
structure OcrTokenizerB where
  batchDecode : Nat → List String

/-- State of a `HugginfaceVEDModel` instance. -/
structure VedState where
  name : String
  dev : String
  root : List String
  model : Option VedModelB
  tokenizer : Option OcrTokenizerB
  image_processor : Option ImageProcessorB

/-- External calls `_ocr` can make, in order. -/
inductive OcrEvent where
  | processorCall (img : PyVal) : OcrEvent
  | pixelCuda : OcrEvent
  | generateCall (pv : Nat) : OcrEvent
  | decodeCall (g : Nat) : OcrEvent
  | emptyCache : OcrEvent

/-- `HugginfaceVEDModel.unload` (plugin.py lines 263-276). -/
def HugginfaceVEDModel.unload (s : VedState) : VedState :=
  let s1 := if s.model.isSome then { s with model := none } else s
  let s2 := if s1.tokenizer.isSome then { s1 with tokenizer := none } else s1
  if s2.image_processor.isSome then { s2 with image_processor := none } else s2

/-- `HugginfaceVEDModel._ocr` (plugin.py lines 278-311). -/
def HugginfaceVEDModel._ocr (st : VedState) (img : PyVal) (lang : Option String)
    (options : Option PyVal) : Except PyErr String × List OcrEvent :=
  match st.model, st.tokenizer, st.image_processor with
  | some mdl, some tok, some proc =>
    match proc.call img with
    | Except.error e => (Except.error e, [OcrEvent.processorCall img])
    | Except.ok pv =>
      let evCuda := if st.dev == "cuda" then [OcrEvent.pixelCuda] else []
      let g := mdl.generate pv
      let d := tok.batchDecode g
      let evs := [OcrEvent.processorCall img] ++ evCuda ++
        [OcrEvent.generateCall pv, OcrEvent.decodeCall g]
      match d with
      | [] => (Except.error PyErr.indexError, evs)
      | t :: _ =>
        (Except.ok t, evs ++ (if st.dev == "cuda" then [OcrEvent.emptyCache] else []))
  | _, _, _ => (Except.error (PyErr.runtimeError "Model not loaded"), [])

/-- A loader whose calls always succeed with artifact `a`. -/
def loaderOk {α : Type} (a : α) : Loader α :=
  ⟨fun _ => Except.ok (some a), fun _ _ => Except.ok (some a)⟩

/-- A loader whose calls always raise exception `e`. -/
def loaderRaise {α : Type} (e : Nat) : Loader α :=
  ⟨fun _ => Except.error e, fun _ _ => Except.error e⟩

/-- An environment in which every class loads successfully. -/
def envAllOk : Env Unit :=
  ⟨loaderOk (), loaderOk (), loaderOk (), loaderOk (), loaderOk ()⟩

/-- An environment in which the tokenizer class raises (exception id 7)
on both the local-path and the cache attempt. -/
def envTokRaises : Env Unit :=
  ⟨loaderRaise 7, loaderOk (), loaderOk (), loaderOk (), loaderOk ()⟩

/-- A concrete tokenizer behaviour: not an M2M100 tokenizer, every
batch decodes to the single translation "hello". -/
def tokSimple : TokenizerB :=
  ⟨false, fun _ => 0, fun _ _ => (0, 4), fun _ => ["hello"]⟩

/-- A concrete seq2seq model behaviour. -/
def mdlSimple : ModelB := ⟨fun e _ => e⟩

/-- A loaded seq2seq adapter state over the concrete behaviours. -/
def s2sLoaded : Seq2SeqState := ⟨"m", "cpu", [], some mdlSimple, some tokSimple⟩

/-- A seq2seq adapter state with no artifacts loaded. -/
def s2sEmpty : Seq2SeqState := ⟨"m", "cpu", [], none, none⟩

/-- An image-processor behaviour that accepts any input value. -/
def procPermissive : ImageProcessorB := ⟨fun _ => Except.ok 11⟩

/-- A loaded VED adapter state whose image processor accepts anything
and whose tokenizer decodes every batch to "text". -/
def vedLoaded : VedState :=
  ⟨"m", "cpu", [], some ⟨fun pv => pv⟩, some ⟨fun _ => ["text"]⟩, some procPermissive⟩

/-- A VED adapter state with no artifacts loaded. -/
def vedEmpty : VedState := ⟨"m", "cpu", [], none, none, none⟩

theorem get_mnt_eq (ntok : Nat) (opts : MntOptions)
    (h : opts.min_max_new_tokens.getD 20 ≤ opts.max_max_new_tokens.getD 512) :
    get_mnt ntok opts = Except.ok (pyInt (min ((opts.max_max_new_tokens.getD 512 : Int) : ℚ)
      (max ((opts.min_max_new_tokens.getD 20 : Int) : ℚ)
        (opts.max_new_tokens_ratio.getD 3 * (ntok : ℚ))))) := by
  unfold get_mnt
  simp only [gt_iff_lt, not_lt.mpr h, if_false]


theorem dictInsert_pres {β : Type} (P : String → β → Prop) (d : List (String × β))
    (k : String) (v : β) (hd : ∀ p ∈ d, P p.1 p.2) (hv : P k v) :
    ∀ p ∈ dictInsert d k v, P p.1 p.2 := by
  intro p hp
  unfold dictInsert at hp
  by_cases hc : d.any (fun q => q.1 == k)
  · rw [if_pos hc] at hp
    obtain ⟨q, hq, hq2⟩ := List.mem_map.mp hp
    by_cases hqk : q.1 == k
    · rw [if_pos hqk] at hq2; subst hq2; exact hv
    · rw [if_neg hqk] at hq2; subst hq2; exact hd q hq
  · rw [if_neg hc] at hp
    rcases List.mem_append.mp hp with hmem | hmem
    · exact hd p hmem
    · simp at hmem; subst hmem; exact hv

theorem loadLoop_moved {α : Type} (env : Env α) (mid : String) (request : List String)
    (root : List String) (dev : String) (acc : List (String × LoadedObj α))
    (hacc : ∀ p ∈ acc, p.2.movedTo = if p.1 ∈ Loaders.accept_device then some dev else none)
    (res : List (String × LoadedObj α))
    (h : (Loaders.loadLoop env mid request root dev acc).1 = Except.ok res) :
    ∀ p ∈ res, p.2.movedTo = if p.1 ∈ Loaders.accept_device then some dev else none := by
  induction request generalizing acc with
  | nil =>
    simp only [Loaders.loadLoop] at h
    cases h
    exact hacc
  | cons r rest ih =>
    cases hm : Loaders.mapping env r with
    | none =>
      simp only [Loaders.loadLoop, hm] at h
      exact (Except.noConfusion h)
    | some L =>
      simp only [Loaders.loadLoop, hm] at h
      cases hl : (Loaders._load L mid root).1 with
      | error e => rw [hl] at h; simp at h
      | ok o =>
        cases o with
        | none => rw [hl] at h; simp at h
        | some cls =>
          rw [hl] at h
          refine ih (dictInsert acc r
            (if r ∈ Loaders.accept_device then ⟨cls, some dev⟩ else ⟨cls, none⟩)) ?_ h
          intro p hp
          refine dictInsert_pres (fun k v => v.movedTo
            = if k ∈ Loaders.accept_device then some dev else none) acc r _ hacc ?_ p hp
          by_cases hr : r ∈ Loaders.accept_device <;> simp [hr]

theorem loadLoop_unknown {α : Type} (env : Env α) (mid : String) (root : List String)
    (dev : String) (pre post : List String) (r : String)
    (acc : List (String × LoadedObj α))
    (hunk : Loaders.mapping env r = none)
    (hpre : ∀ r' ∈ pre, ∀ L, Loaders.mapping env r' = some L →
      ∀ e, (Loaders._load L mid root).1 ≠ Except.error e) :
    ∃ msg, (Loaders.loadLoop env mid (pre ++ r :: post) root dev acc).1
      = Except.error (PyErr.valueError msg) := by
  induction pre generalizing acc with
  | nil =>
    refine ⟨"Unknown request: " ++ r, ?_⟩
    simp only [List.nil_append, Loaders.loadLoop, hunk]
  | cons r' pre' ih =>
    simp only [List.cons_append]
    cases hm : Loaders.mapping env r' with
    | none =>
      exact ⟨"Unknown request: " ++ r', by simp only [Loaders.loadLoop, hm]⟩
    | some L =>
      cases hl : (Loaders._load L mid root).1 with
      | error e => exact absurd hl (hpre r' (List.mem_cons_self r' pre') L hm e)
      | ok o =>
        cases o with
        | none =>
          refine ⟨"Could not load model: " ++ mid, ?_⟩
          simp only [Loaders.loadLoop, hm, hl]
        | some cls =>
          have step : (Loaders.loadLoop env mid (r' :: (pre' ++ r :: post)) root dev acc).1
              = (Loaders.loadLoop env mid (pre' ++ r :: post) root dev
                  (dictInsert acc r' (if r' ∈ Loaders.accept_device then ⟨cls, some dev⟩
                    else ⟨cls, none⟩))).1 := by
            simp only [Loaders.loadLoop, hm, hl]
          rw [step]
          exact ih _ (fun r'' h'' L' hL' e => hpre r'' (List.mem_cons_of_mem r' h'') L' hL' e)

theorem loadLoop_trace_known {α : Type} (env : Env α) (mid : String)
    (request : List String) (root : List String) (dev : String)
    (acc : List (String × LoadedObj α)) :
    ∀ p ∈ (Loaders.loadLoop env mid request root dev acc).2,
      (Loaders.mapping env p.1).isSome = true := by
  induction request generalizing acc with
  | nil =>
    intro p hp
    simp only [Loaders.loadLoop] at hp
    exact absurd hp (List.not_mem_nil p)
  | cons r rest ih =>
    intro p hp
    cases hm : Loaders.mapping env r with
    | none =>
      simp only [Loaders.loadLoop, hm] at hp
      exact absurd hp (List.not_mem_nil p)
    | some L =>
      simp only [Loaders.loadLoop, hm] at hp
      cases hl : (Loaders._load L mid root).1 with
      | error e =>
        simp only [hl] at hp
        obtain ⟨a, ha, rfl⟩ := List.mem_map.mp hp
        simp [hm]
      | ok o =>
        cases o with
        | none =>
          simp only [hl] at hp
          obtain ⟨a, ha, rfl⟩ := List.mem_map.mp hp
          simp [hm]
        | some cls =>
          simp only [hl] at hp
          rcases List.mem_append.mp hp with hmem | hmem
          · obtain ⟨a, ha, rfl⟩ := List.mem_map.mp hmem
            simp [hm]
          · exact ih _ p hmem

/-- C1: for every input token count `ntok` and every options dict whose
`min_max_new_tokens` does not exceed its `max_max_new_tokens` (defaults
20, 512, ratio 3.0), `get_mnt` returns the integer truncation of
`min(max_max_new_tokens, max(min_max_new_tokens,
max_new_tokens_ratio * ntok))`. -/
theorem get_mnt_bounded_formula (ntok : Nat) (opts : MntOptions)
    (h : opts.min_max_new_tokens.getD 20 ≤ opts.max_max_new_tokens.getD 512) :
    get_mnt ntok opts = Except.ok (pyInt (min ((opts.max_max_new_tokens.getD 512 : Int) : ℚ)
      (max ((opts.min_max_new_tokens.getD 20 : Int) : ℚ)
        (opts.max_new_tokens_ratio.getD 3 * (ntok : ℚ))))) :=
  get_mnt_eq ntok opts h

theorem get_mnt_bounded_formula_witness :
    get_mnt 4 ⟨some 5, some 100, some 3⟩ = Except.ok 12 := by
  rw [get_mnt_bounded_formula 4 ⟨some 5, some 100, some 3⟩ (by norm_num)]
  rw [pyInt, min_def, max_def]
  norm_num

/-- C2: `Loaders._load` first attempts to load from the local path
`root / model_id` (the first trace entry is always that attempt); it
retries `model_id` as a remote registry id with cache directory `root`
exactly when the local attempt raises; and the result of whichever
attempt ran last is returned unchanged. -/
theorem load_two_tier_fallback {α : Type} (loader : Loader α) (model_id : String)
    (root : List String) :
    (Loaders._load loader model_id root).2.head?
      = some (LoadAttempt.fromStore (root ++ [model_id])) ∧
    ((Loaders._load loader model_id root).1 =
      match loader.fromPretrainedPath (root ++ [model_id]) with
      | Except.ok v => Except.ok v
      | Except.error _ => loader.fromPretrainedCache model_id root) ∧
    ((∃ e, loader.fromPretrainedPath (root ++ [model_id]) = Except.error e) ↔
      (Loaders._load loader model_id root).2
        = [LoadAttempt.fromStore (root ++ [model_id]),
           LoadAttempt.fromCache model_id root]) ∧
    ((∃ v, loader.fromPretrainedPath (root ++ [model_id]) = Except.ok v) ↔
      (Loaders._load loader model_id root).2
        = [LoadAttempt.fromStore (root ++ [model_id])]) := by
  unfold Loaders._load
  cases h : loader.fromPretrainedPath (root ++ [model_id]) with
  | ok v => simp [h]
  | error e => simp [h]

/-- C3 (amended): `Loaders.load` never makes a load attempt for a
request entry that is not in `Loaders.mapping`; and provided every
entry before the unknown one loads without a propagated exception, the
call raises a `ValueError`.  (As originally stated the claim fails: an
earlier entry whose two load attempts both raise makes `load` propagate
that exception instead, see the counterexample.) -/
theorem load_unknown_request_rejected {α : Type} (env : Env α) (mid : String)
    (pre post : List String) (r : String) (root : List String) (dev : String)
    (hunk : Loaders.mapping env r = none)
    (hpre : ∀ r' ∈ pre, ∀ L, Loaders.mapping env r' = some L →
      ∀ e, (Loaders._load L mid root).1 ≠ Except.error e) :
    (∃ msg, (Loaders.load env mid (pre ++ r :: post) root dev).1
      = Except.error (PyErr.valueError msg)) ∧
    (∀ p ∈ (Loaders.load env mid (pre ++ r :: post) root dev).2, p.1 ≠ r) := by
  constructor
  · exact loadLoop_unknown env mid root dev pre post r [] hunk hpre
  · intro p hp heq
    have hk := loadLoop_trace_known env mid (pre ++ r :: post) root dev [] p hp
    rw [heq, hunk] at hk
    exact Bool.noConfusion hk

theorem load_unknown_request_rejected_witness :
    isValueError (Loaders.load envAllOk "m" (["tokenizer"] ++ ["bogus"]) [] "cpu").1
      = true := by
  have h := load_unknown_request_rejected envAllOk "m" ["tokenizer"] [] "bogus" [] "cpu"
    rfl ?hpre
  case hpre =>
    intro r' hr' L hL e hcontra
    simp only [List.mem_singleton] at hr'
    subst hr'
    rw [show Loaders.mapping envAllOk "tokenizer" = some (loaderOk ()) from rfl] at hL
    injection hL with hL2
    subst hL2
    simp [Loaders._load, loaderOk] at hcontra
  obtain ⟨msg, hmsg⟩ := h.1
  rw [hmsg]
  rfl

/-- C3 counterexample: request `['tokenizer', 'bogus']` contains the
unknown entry "bogus", yet in an environment where the tokenizer load
raises on both attempts, `Loaders.load` propagates that exception and
raises no `ValueError`. -/
theorem load_unknown_request_cex :
    Loaders.mapping envTokRaises "bogus" = (none : Option (Loader Unit)) ∧
    isValueError (Loaders.load envTokRaises "m" ["tokenizer", "bogus"] [] "cpu").1
      = false ∧
    (Loaders.load envTokRaises "m" ["tokenizer", "bogus"] [] "cpu").1
      = Except.error (PyErr.loaderExn 7) :=
  ⟨rfl, rfl, rfl⟩

/-- C4: evaluation at the failing input.  When a model id can be loaded
neither from the local path nor from the remote fallback (both
`from_pretrained` calls raise, here with exception id 7), `Loaders.load`
propagates the loader's exception instead of raising the `ValueError`
promised by its docstring. -/
theorem load_failure_propagates_exn :
    (Loaders.load envTokRaises "badid" ["tokenizer"] [] "cpu").1
      = Except.error (PyErr.loaderExn 7) ∧
    isValueError (Loaders.load envTokRaises "badid" ["tokenizer"] [] "cpu").1 = false :=
  ⟨rfl, rfl⟩

/-- C5: calling `_translate` or `_ocr` while any required artifact slot
is `None` raises a `RuntimeError` and performs no external call at all
(the trace is empty). -/
theorem use_before_load_runtime_error (s : Seq2SeqState) (v : VedState) (tokens : PyVal)
    (src_lang dst_lang : String) (o1 : Option MntOptions) (img : PyVal)
    (lang : Option String) (o2 : Option PyVal)
    (hs : s.model = none ∨ s.tokenizer = none)
    (hv : v.model = none ∨ v.tokenizer = none ∨ v.image_processor = none) :
    HugginfaceSeq2SeqModel._translate s tokens src_lang dst_lang o1
      = (Except.error (PyErr.runtimeError "Model not loaded"), []) ∧
    HugginfaceVEDModel._ocr v img lang o2
      = (Except.error (PyErr.runtimeError "Model not loaded"), []) := by
  constructor
  · obtain ⟨n, dv, rt, m, t⟩ := s
    cases m <;> cases t <;>
      first
        | rfl
        | (rcases hs with h | h <;> exact Option.noConfusion h)
  · obtain ⟨n, dv, rt, m, t, ip⟩ := v
    cases m <;> cases t <;> cases ip <;>
      first
        | rfl
        | (rcases hv with h | h | h <;> exact Option.noConfusion h)

theorem use_before_load_runtime_error_witness :
    HugginfaceSeq2SeqModel._translate s2sEmpty (PyVal.list []) "ja" "en" none
      = (Except.error (PyErr.runtimeError "Model not loaded"), []) ∧
    HugginfaceVEDModel._ocr vedEmpty (PyVal.image 0) none none
      = (Except.error (PyErr.runtimeError "Model not loaded"), []) :=
  use_before_load_runtime_error s2sEmpty vedEmpty (PyVal.list []) "ja" "en" none
    (PyVal.image 0) none none (Or.inl rfl) (Or.inl rfl)

/-- C6: evaluation at the failing input.  `_translate` does raise a
`TypeError` on a non-list `tokens` argument, but `_ocr` performs no type
check on `img`: with an image processor that accepts any value, `_ocr`
on the non-image input `5` returns normally instead of raising the
`TypeError` promised by its docstring. -/
theorem malformed_input_checks_eval :
    (HugginfaceSeq2SeqModel._translate s2sLoaded (PyVal.int 3) "ja" "en" none).1
      = Except.error (PyErr.typeError
          "tokens must be a list of strings or a list of list of strings") ∧
    (HugginfaceVEDModel._ocr vedLoaded (PyVal.int 5) none none).1 = Except.ok "text" :=
  ⟨rfl, rfl⟩

/-- C7: in a successful `Loaders.load`, exactly the loaded objects whose
request kind is in `accept_device` are moved to the target device; all
other kinds are returned without a device transfer. -/
theorem load_device_placement {α : Type} (env : Env α) (mid : String)
    (request : List String) (root : List String) (dev : String)
    (res : List (String × LoadedObj α))
    (h : (Loaders.load env mid request root dev).1 = Except.ok res) :
    ∀ p ∈ res, p.2.movedTo = if p.1 ∈ Loaders.accept_device then some dev else none :=
  loadLoop_moved env mid request root dev []
    (fun p hp => absurd hp (List.not_mem_nil p)) res h

theorem load_device_placement_witness :
    (⟨(), some "cpu"⟩ : LoadedObj Unit).movedTo
      = (if "seq2seq" ∈ Loaders.accept_device then some "cpu" else none) ∧
    (⟨(), none⟩ : LoadedObj Unit).movedTo
      = (if "tokenizer" ∈ Loaders.accept_device then some "cpu" else none) := by
  have h := load_device_placement envAllOk "m" ["seq2seq", "tokenizer"] [] "cpu"
    [("seq2seq", ⟨(), some "cpu"⟩), ("tokenizer", ⟨(), none⟩)] rfl
  exact ⟨h ("seq2seq", ⟨(), some "cpu"⟩) (by simp),
         h ("tokenizer", ⟨(), none⟩) (by simp)⟩

/-- C8: `unload` sets every artifact slot to `None` and leaves `name`,
`dev` and `root` unchanged, for both adapter classes; a second `unload`
changes nothing (idempotence). -/
theorem unload_releases_artifacts (s : Seq2SeqState) (v : VedState) :
    ((HugginfaceSeq2SeqModel.unload s).model = none ∧
     (HugginfaceSeq2SeqModel.unload s).tokenizer = none ∧
     (HugginfaceSeq2SeqModel.unload s).name = s.name ∧
     (HugginfaceSeq2SeqModel.unload s).dev = s.dev ∧
     (HugginfaceSeq2SeqModel.unload s).root = s.root ∧
     HugginfaceSeq2SeqModel.unload (HugginfaceSeq2SeqModel.unload s)
       = HugginfaceSeq2SeqModel.unload s) ∧
    ((HugginfaceVEDModel.unload v).model = none ∧
     (HugginfaceVEDModel.unload v).tokenizer = none ∧
     (HugginfaceVEDModel.unload v).image_processor = none ∧
     (HugginfaceVEDModel.unload v).name = v.name ∧
     (HugginfaceVEDModel.unload v).dev = v.dev ∧
     (HugginfaceVEDModel.unload v).root = v.root ∧
     HugginfaceVEDModel.unload (HugginfaceVEDModel.unload v)
       = HugginfaceVEDModel.unload v) := by
  constructor
  · obtain ⟨n, dv, rt, m, t⟩ := s
    cases m <;> cases t <;> simp [HugginfaceSeq2SeqModel.unload]
  · obtain ⟨n, dv, rt, m, t, ip⟩ := v
    cases m <;> cases t <;> cases ip <;> simp [HugginfaceVEDModel.unload]

/-- C9: on a loaded model, `_translate` applied to the empty token list
returns the empty string (not a list) and makes no tokenizer or model
call (the trace is empty). -/
theorem translate_empty_returns_empty_string (name dev : String) (root : List String)
    (mdl : ModelB) (tok : TokenizerB) (src_lang dst_lang : String)
    (options : Option MntOptions) :
    HugginfaceSeq2SeqModel._translate ⟨name, dev, root, some mdl, some tok⟩
      (PyVal.list []) src_lang dst_lang options = (Except.ok (PyVal.str ""), []) := rfl

theorem translate_nonempty_result (name dev : String) (root : List String)
    (mdl : ModelB) (tok : TokenizerB) (x : PyVal) (xs : List PyVal)
    (src_lang dst_lang : String) (opts : MntOptions)
    (hopt : opts.min_max_new_tokens.getD 20 ≤ opts.max_max_new_tokens.getD 512) :
    (HugginfaceSeq2SeqModel._translate ⟨name, dev, root, some mdl, some tok⟩
        (PyVal.list (x :: xs)) src_lang dst_lang (some opts)).1
      = match x, tslDecodedList tok mdl (PyVal.list (x :: xs)) src_lang dst_lang opts with
        | PyVal.str _, [] => Except.error PyErr.indexError
        | PyVal.str _, t :: _ => Except.ok (PyVal.str t)
        | _, d => Except.ok (PyVal.list (d.map PyVal.str)) := by
  have hmnt := get_mnt_eq (tok.encode src_lang (PyVal.list (x :: xs))).2 opts hopt
  simp only [HugginfaceSeq2SeqModel._translate, tslDecodedList, Option.getD_some, hmnt]
  split <;> simp_all

/-- C10: for a loaded model and a non-empty token list (with valid
options), the shape of the `_translate` result is decided by the first
element: if `tokens[0]` is a string the call returns the first decoded
translation as a single string, otherwise it returns the full list of
decoded translations. -/
theorem translate_result_shape (name dev : String) (root : List String)
    (mdl : ModelB) (tok : TokenizerB) (x : PyVal) (xs : List PyVal)
    (src_lang dst_lang : String) (opts : MntOptions)
    (hopt : opts.min_max_new_tokens.getD 20 ≤ opts.max_max_new_tokens.getD 512) :
    (∀ s, x = PyVal.str s →
      tslDecodedList tok mdl (PyVal.list (x :: xs)) src_lang dst_lang opts ≠ [] →
      (HugginfaceSeq2SeqModel._translate ⟨name, dev, root, some mdl, some tok⟩
        (PyVal.list (x :: xs)) src_lang dst_lang (some opts)).1
        = Except.ok (PyVal.str ((tslDecodedList tok mdl (PyVal.list (x :: xs))
            src_lang dst_lang opts).headD ""))) ∧
    (x.isStr = false →
      (HugginfaceSeq2SeqModel._translate ⟨name, dev, root, some mdl, some tok⟩
        (PyVal.list (x :: xs)) src_lang dst_lang (some opts)).1
        = Except.ok (PyVal.list ((tslDecodedList tok mdl (PyVal.list (x :: xs))
            src_lang dst_lang opts).map PyVal.str))) := by
  have hres := translate_nonempty_result name dev root mdl tok x xs src_lang dst_lang
    opts hopt
  constructor
  · rintro s rfl hne
    rw [hres]
    cases hd : tslDecodedList tok mdl (PyVal.list (PyVal.str s :: xs))
        src_lang dst_lang opts with
    | nil => exact absurd hd hne
    | cons t ts => simp [hd]
  · intro hx
    rw [hres]
    cases x <;> simp [PyVal.isStr] at hx ⊢

theorem translate_result_shape_witness :
    (HugginfaceSeq2SeqModel._translate ⟨"m", "cpu", [], some mdlSimple, some tokSimple⟩
      (PyVal.list [PyVal.str "hi"]) "ja" "en" (some ⟨none, none, none⟩)).1
      = Except.ok (PyVal.str ((tslDecodedList tokSimple mdlSimple
          (PyVal.list [PyVal.str "hi"]) "ja" "en" ⟨none, none, none⟩).headD "")) :=
  (translate_result_shape "m" "cpu" [] mdlSimple tokSimple (PyVal.str "hi") [] "ja" "en"
    ⟨none, none, none⟩ (by norm_num)).1 "hi" rfl
    (fun hcontra => List.noConfusion hcontra)
